import Mathlib

/-!
Verification of the safety-and-execution kernel of the supabase-mcp server.

The definitions below are a shallow embedding of the Python source:

* `src/services/safety/models.py` — risk levels, safety modes, client types;
* `src/services/safety/safety_configs.py` — the base safety policy
  (`is_operation_allowed`, `needs_confirmation`), the API path/method risk
  table with its placeholder-to-regex conversion, and the SQL statement
  classification table;
* `src/services/safety/safety_manager.py` — operation validation and the
  pending-confirmation store with its 300-second expiry;
* `src/services/database/sql/validator.py` — batch validation and the
  transaction-control rejection;
* `src/services/database/query_manager.py` — migration recording that is
  swallowed on failure;
* `src/services/database/migration_manager.py` — migration-name
  sanitization.

Python `dict`s keyed by strings are modelled as association lists together
with `py_dict_set` / `find_entry`, which mirror dict assignment and
`dict.get`.  `time.time()` values are modelled as integers.  Python regular
expressions appear only in two closed forms in the source: the converted
path patterns (literal characters, the class `[^/]+`, a trailing `$`) and
the sanitizer's Unicode-aware `[^\w\s]` / `\s+` classes together with
`str.lower()`, modelled exactly on the character repertoire the sanitizer
statements range over: ASCII plus U+0130 and U+0307 (see `is_word_char`,
`is_space_char`, `py_lower_map`).
-/

/-! ### Risk levels, safety modes, client types (`src/services/safety/models.py`) -/

/-- `OperationRiskLevel` from `models.py`: an `IntEnum` with LOW=1, MEDIUM=2,
HIGH=3, EXTREME=4. -/
inductive OperationRiskLevel where
  | LOW
  | MEDIUM
  | HIGH
  | EXTREME
deriving DecidableEq, Repr

/-- The integer value of each `OperationRiskLevel` member (it is an `IntEnum`). -/
def risk_value : OperationRiskLevel → Nat
  | .LOW => 1
  | .MEDIUM => 2
  | .HIGH => 3
  | .EXTREME => 4

/-- `SafetyMode` from `models.py`. -/
inductive SafetyMode where
  | SAFE
  | UNSAFE
deriving DecidableEq, Repr

/-- `ClientType` from `models.py`. -/
inductive ClientType where
  | DATABASE
  | API
deriving DecidableEq, Repr

/-! ### Base safety policy (`safety_configs.py`, `SafetyConfigBase`) -/

/-- `SafetyConfigBase.is_operation_allowed`: LOW always allowed; MEDIUM and
HIGH only in UNSAFE mode; EXTREME never. -/
def is_operation_allowed (risk_level : OperationRiskLevel) (mode : SafetyMode) : Bool :=
  if risk_level = .LOW then true
  else if risk_level = .MEDIUM then mode == .UNSAFE
  else if risk_level = .HIGH then mode == .UNSAFE
  else false

/-- `SafetyConfigBase.needs_confirmation`: `risk_level >= OperationRiskLevel.HIGH`
(the `IntEnum` comparison compares the integer values). -/
def needs_confirmation (risk_level : OperationRiskLevel) : Bool :=
  decide (risk_value .HIGH ≤ risk_value risk_level)

/-! ### Association-list model of Python dicts keyed by strings -/

/-- Model of Python dict assignment `d[k] = v`: replace the binding in place
if the key is present, otherwise append it. -/
def py_dict_set {β : Type} (k : String) (v : β) : List (String × β) → List (String × β)
  | [] => [(k, v)]
  | e :: rest => if e.1 = k then (k, v) :: rest else e :: py_dict_set k v rest

/-- Model of Python `d.get(k)`: the value bound to the first occurrence of
the key, if any. -/
def find_entry {β : Type} (k : String) : List (String × β) → Option β
  | [] => none
  | e :: rest => if e.1 = k then some e.2 else find_entry k rest

/-! ### Pending-confirmation store (`safety_manager.py`) -/

/-- One value of `SafetyManager._pending_confirmations`, storing the
operation together with its metadata (`_store_confirmation`). -/
structure PendingConfirmation (α : Type) where
  operation : α
  client_type : ClientType
  risk_level : OperationRiskLevel
  timestamp : Int
deriving DecidableEq, Repr

/-- `SafetyManager._confirmation_expiry` (300 s, five minutes). -/
def confirmation_expiry : Int := 300

/-- `SafetyManager._cleanup_expired_confirmations`: delete every entry whose
age `now - timestamp` exceeds the expiry, i.e. keep exactly those with
`now - timestamp ≤ 300`. -/
def cleanup_expired_confirmations {α : Type} (now : Int)
    (pending : List (String × PendingConfirmation α)) :
    List (String × PendingConfirmation α) :=
  pending.filter fun e => decide (now - e.2.timestamp ≤ confirmation_expiry)

/-- The confirmation id built by `SafetyManager._store_confirmation`:
`"conf_" + uuid.uuid4().hex[:8]` as a function of the 32-character uuid hex
string. -/
def generate_confirmation_id (uuid_hex : String) : String :=
  ⟨"conf_".data ++ uuid_hex.data.take 8⟩

/-- `SafetyManager._store_confirmation`: generate the id, store the operation
with its metadata and the current timestamp, then clean up expired entries.
Returns the id together with the updated pending map. -/
def store_confirmation {α : Type} (uuid_hex : String) (client_type : ClientType)
    (operation : α) (risk_level : OperationRiskLevel) (now : Int)
    (pending : List (String × PendingConfirmation α)) :
    String × List (String × PendingConfirmation α) :=
  let confirmation_id := generate_confirmation_id uuid_hex
  let stored := py_dict_set confirmation_id
    { operation := operation, client_type := client_type,
      risk_level := risk_level, timestamp := now } pending
  (confirmation_id, cleanup_expired_confirmations now stored)

/-- `SafetyManager._get_confirmation`: clean up expired entries first, then
return the stored confirmation (or none) together with the updated map. -/
def get_confirmation {α : Type} (confirmation_id : String) (now : Int)
    (pending : List (String × PendingConfirmation α)) :
    Option (PendingConfirmation α) × List (String × PendingConfirmation α) :=
  let cleaned := cleanup_expired_confirmations now pending
  (find_entry confirmation_id cleaned, cleaned)

/-- `SafetyManager.get_stored_operation`: look the confirmation up and
project out the stored operation; the entry itself is not deleted. -/
def get_stored_operation {α : Type} (confirmation_id : String) (now : Int)
    (pending : List (String × PendingConfirmation α)) :
    Option α × List (String × PendingConfirmation α) :=
  let r := get_confirmation confirmation_id now pending
  (r.1.map PendingConfirmation.operation, r.2)

/-! ### Operation validation (`safety_manager.py`, `validate_operation`) -/

/-- Outcome of `SafetyManager.validate_operation`: normal return, an
`OperationNotAllowedError`, or a `ConfirmationRequiredError` carrying the
confirmation id that was stored. -/
inductive SafetyDecision where
  | allowed
  | notAllowed
  | confirmationRequired (confirmation_id : String)
deriving DecidableEq, Repr

/-- `SafetyManager.validate_operation`.  `configs` models
`_safety_configs` (each registered config contributes its `get_risk_level`;
`is_operation_allowed` and `needs_confirmation` are the shared base-class
implementations, which neither `SQLSafetyConfig` nor `APISafetyConfig`
overrides).  `modes` models `_safety_modes`, `uuid_hex` the
`uuid.uuid4().hex` drawn during `_store_confirmation`, `now` the value of
`time.time()`.  Returns the decision together with the updated pending
map. -/
def validate_operation {α : Type} (configs : ClientType → Option (α → OperationRiskLevel))
    (modes : ClientType → SafetyMode)
    (pending : List (String × PendingConfirmation α))
    (client_type : ClientType) (operation : α) (has_confirmation : Bool)
    (uuid_hex : String) (now : Int) :
    SafetyDecision × List (String × PendingConfirmation α) :=
  let mode := modes client_type
  match configs client_type with
  | none => (.notAllowed, pending)
  | some risk_of =>
    let risk_level := risk_of operation
    if !(is_operation_allowed risk_level mode) then (.notAllowed, pending)
    else if needs_confirmation risk_level && !has_confirmation then
      let r := store_confirmation uuid_hex client_type operation risk_level now pending
      (.confirmationRequired r.1, r.2)
    else (.allowed, pending)

/-! ### SQL statement classification (`safety_configs.py`, `SQLSafetyConfig`) -/

/-- `SQLQueryCategory` from `src/services/database/sql/models.py`. -/
inductive SQLQueryCategory where
  | DQL
  | DML
  | DDL
  | TCL
  | DCL
  | POSTGRES_SPECIFIC
  | OTHER
deriving DecidableEq, Repr

/-- `SQLQueryCommand` from `src/services/database/sql/models.py`. -/
inductive SQLQueryCommand where
  | SELECT
  | INSERT
  | UPDATE
  | DELETE
  | MERGE
  | CREATE
  | ALTER
  | DROP
  | TRUNCATE
  | COMMENT
  | RENAME
  | GRANT
  | REVOKE
  | BEGIN
  | COMMIT
  | ROLLBACK
  | SAVEPOINT
  | VACUUM
  | ANALYZE
  | EXPLAIN
  | COPY
  | LISTEN
  | NOTIFY
  | PREPARE
  | EXECUTE
  | DEALLOCATE
  | UNKNOWN
deriving DecidableEq, Repr

/-- One row of `SQLSafetyConfig.STATEMENT_CONFIG` (and the dictionaries
returned by `classify_statement`). -/
structure StatementConfigEntry where
  category : SQLQueryCategory
  risk_level : OperationRiskLevel
  needs_migration : Bool
deriving DecidableEq, Repr

/-- `SQLSafetyConfig.STATEMENT_CONFIG`, keyed by the pglast node type name. -/
def STATEMENT_CONFIG : List (String × StatementConfigEntry) := [
  ("SelectStmt", ⟨.DQL, .LOW, false⟩),
  ("ExplainStmt", ⟨.POSTGRES_SPECIFIC, .LOW, false⟩),
  ("InsertStmt", ⟨.DML, .MEDIUM, false⟩),
  ("UpdateStmt", ⟨.DML, .MEDIUM, false⟩),
  ("DeleteStmt", ⟨.DML, .MEDIUM, false⟩),
  ("MergeStmt", ⟨.DML, .MEDIUM, false⟩),
  ("CreateStmt", ⟨.DDL, .MEDIUM, true⟩),
  ("CreateTableAsStmt", ⟨.DDL, .MEDIUM, true⟩),
  ("CreateSchemaStmt", ⟨.DDL, .MEDIUM, true⟩),
  ("CreateExtensionStmt", ⟨.DDL, .MEDIUM, true⟩),
  ("AlterTableStmt", ⟨.DDL, .MEDIUM, true⟩),
  ("AlterDomainStmt", ⟨.DDL, .MEDIUM, true⟩),
  ("CreateFunctionStmt", ⟨.DDL, .MEDIUM, true⟩),
  ("IndexStmt", ⟨.DDL, .MEDIUM, true⟩),
  ("CreateTrigStmt", ⟨.DDL, .MEDIUM, true⟩),
  ("ViewStmt", ⟨.DDL, .MEDIUM, true⟩),
  ("CommentStmt", ⟨.DDL, .MEDIUM, true⟩),
  ("CreateEnumStmt", ⟨.DDL, .MEDIUM, true⟩),
  ("CreateTypeStmt", ⟨.DDL, .MEDIUM, true⟩),
  ("CreateDomainStmt", ⟨.DDL, .MEDIUM, true⟩),
  ("CreateSeqStmt", ⟨.DDL, .MEDIUM, true⟩),
  ("CreateForeignTableStmt", ⟨.DDL, .MEDIUM, true⟩),
  ("CreatePolicyStmt", ⟨.DDL, .MEDIUM, true⟩),
  ("CreateCastStmt", ⟨.DDL, .MEDIUM, true⟩),
  ("CreateOpClassStmt", ⟨.DDL, .MEDIUM, true⟩),
  ("CreateOpFamilyStmt", ⟨.DDL, .MEDIUM, true⟩),
  ("AlterEnumStmt", ⟨.DDL, .MEDIUM, true⟩),
  ("AlterSeqStmt", ⟨.DDL, .MEDIUM, true⟩),
  ("AlterOwnerStmt", ⟨.DDL, .MEDIUM, true⟩),
  ("AlterObjectSchemaStmt", ⟨.DDL, .MEDIUM, true⟩),
  ("RenameStmt", ⟨.DDL, .MEDIUM, true⟩),
  ("DropStmt", ⟨.DDL, .HIGH, true⟩),
  ("TruncateStmt", ⟨.DDL, .HIGH, true⟩),
  ("GrantStmt", ⟨.DCL, .MEDIUM, true⟩),
  ("GrantRoleStmt", ⟨.DCL, .MEDIUM, true⟩),
  ("RevokeStmt", ⟨.DCL, .MEDIUM, true⟩),
  ("RevokeRoleStmt", ⟨.DCL, .MEDIUM, true⟩),
  ("CreateRoleStmt", ⟨.DCL, .MEDIUM, true⟩),
  ("AlterRoleStmt", ⟨.DCL, .MEDIUM, true⟩),
  ("DropRoleStmt", ⟨.DCL, .HIGH, true⟩),
  ("TransactionStmt", ⟨.TCL, .LOW, false⟩),
  ("VacuumStmt", ⟨.POSTGRES_SPECIFIC, .MEDIUM, false⟩),
  ("AnalyzeStmt", ⟨.POSTGRES_SPECIFIC, .LOW, false⟩),
  ("ClusterStmt", ⟨.POSTGRES_SPECIFIC, .MEDIUM, false⟩),
  ("CheckPointStmt", ⟨.POSTGRES_SPECIFIC, .MEDIUM, false⟩),
  ("PrepareStmt", ⟨.POSTGRES_SPECIFIC, .LOW, false⟩),
  ("ExecuteStmt", ⟨.POSTGRES_SPECIFIC, .MEDIUM, false⟩),
  ("DeallocateStmt", ⟨.POSTGRES_SPECIFIC, .LOW, false⟩),
  ("ListenStmt", ⟨.POSTGRES_SPECIFIC, .LOW, false⟩),
  ("NotifyStmt", ⟨.POSTGRES_SPECIFIC, .MEDIUM, false⟩)]

/-- A pglast parse-tree statement node as far as classification inspects it:
its class name (`stmt_node.__class__.__name__`) and, for `CopyStmt`, the
`is_from` attribute (`none` models a node without that attribute). -/
structure PgStmtNode where
  node_type : String
  is_from : Option Bool
deriving DecidableEq, Repr

/-- The default classification used by `classify_statement` when the node
type is not in `STATEMENT_CONFIG`. -/
def default_statement_config : StatementConfigEntry :=
  ⟨.OTHER, .MEDIUM, false⟩

/-- `SQLSafetyConfig.classify_statement`: look the node type up in
`STATEMENT_CONFIG` (defaulting to OTHER/MEDIUM/no-migration), then apply the
`CopyStmt` special case, which requires a truthy `stmt_node`: with
`is_from` present and falsy the statement is COPY TO (DQL/LOW), otherwise
COPY FROM (DML/MEDIUM); `needs_migration` keeps the looked-up value. -/
def classify_statement (stmt_type : String) (stmt_node : Option PgStmtNode) :
    StatementConfigEntry :=
  let config := (find_entry stmt_type STATEMENT_CONFIG).getD default_statement_config
  if stmt_type = "CopyStmt" then
    match stmt_node with
    | none => config
    | some node =>
      match node.is_from with
      | some false => { config with category := .DQL, risk_level := .LOW }
      | _ => { config with category := .DML, risk_level := .MEDIUM }
  else config

/-! ### SQL validator (`src/services/database/sql/validator.py`) -/

/-- `SQLValidator._map_to_command`: pglast node type to `SQLQueryCommand`,
defaulting to UNKNOWN. -/
def COMMAND_MAPPING : List (String × SQLQueryCommand) := [
  ("SelectStmt", .SELECT),
  ("InsertStmt", .INSERT),
  ("UpdateStmt", .UPDATE),
  ("DeleteStmt", .DELETE),
  ("MergeStmt", .MERGE),
  ("CreateStmt", .CREATE),
  ("CreateTableAsStmt", .CREATE),
  ("CreateSchemaStmt", .CREATE),
  ("CreateExtensionStmt", .CREATE),
  ("CreateFunctionStmt", .CREATE),
  ("CreateTrigStmt", .CREATE),
  ("ViewStmt", .CREATE),
  ("IndexStmt", .CREATE),
  ("CreateEnumStmt", .CREATE),
  ("CreateTypeStmt", .CREATE),
  ("CreateDomainStmt", .CREATE),
  ("CreateSeqStmt", .CREATE),
  ("CreateForeignTableStmt", .CREATE),
  ("CreatePolicyStmt", .CREATE),
  ("CreateCastStmt", .CREATE),
  ("CreateOpClassStmt", .CREATE),
  ("CreateOpFamilyStmt", .CREATE),
  ("AlterTableStmt", .ALTER),
  ("AlterDomainStmt", .ALTER),
  ("AlterEnumStmt", .ALTER),
  ("AlterSeqStmt", .ALTER),
  ("AlterOwnerStmt", .ALTER),
  ("AlterObjectSchemaStmt", .ALTER),
  ("DropStmt", .DROP),
  ("TruncateStmt", .TRUNCATE),
  ("CommentStmt", .COMMENT),
  ("RenameStmt", .RENAME),
  ("GrantStmt", .GRANT),
  ("GrantRoleStmt", .GRANT),
  ("RevokeStmt", .REVOKE),
  ("RevokeRoleStmt", .REVOKE),
  ("CreateRoleStmt", .CREATE),
  ("AlterRoleStmt", .ALTER),
  ("DropRoleStmt", .DROP),
  ("TransactionStmt", .BEGIN),
  ("VacuumStmt", .VACUUM),
  ("ExplainStmt", .EXPLAIN),
  ("CopyStmt", .COPY),
  ("ListenStmt", .LISTEN),
  ("NotifyStmt", .NOTIFY),
  ("PrepareStmt", .PREPARE),
  ("ExecuteStmt", .EXECUTE),
  ("DeallocateStmt", .DEALLOCATE)]

/-- `SQLValidator._map_to_command`. -/
def map_to_command (stmt_type : String) : SQLQueryCommand :=
  (find_entry stmt_type COMMAND_MAPPING).getD .UNKNOWN

/-- One element of the pglast parse tree as `validate_statements` walks it:
an optional statement node (`none` models a tree entry without a `stmt`
attribute, which the loop skips). -/
structure RawStmt where
  stmt : Option PgStmtNode
deriving DecidableEq, Repr

/-- The classification-relevant fields of `ValidatedStatement`
(`src/services/database/sql/models.py`); the object/schema/query metadata
fields are not modelled, no claim mentions them. -/
structure ValidatedStatement where
  category : SQLQueryCategory
  command : SQLQueryCommand
  risk_level : OperationRiskLevel
  needs_migration : Bool
deriving DecidableEq, Repr

/-- `QueryValidationResults` (statements plus the tracked highest risk). -/
structure QueryValidationResults where
  statements : List ValidatedStatement
  highest_risk_level : OperationRiskLevel
deriving DecidableEq, Repr

/-- The `ValidatedStatement` built for one parse-tree node in
`SQLValidator.validate_statements`. -/
def build_statement (node : PgStmtNode) : ValidatedStatement :=
  let classification := classify_statement node.node_type (some node)
  { category := classification.category,
    command := map_to_command node.node_type,
    risk_level := classification.risk_level,
    needs_migration := classification.needs_migration }

/-- The ordered list of classified statements `validate_statements` appends
to the batch result (tree entries without a `stmt` attribute are skipped). -/
def classified_statements (parse_tree : List RawStmt) : List ValidatedStatement :=
  (parse_tree.filterMap RawStmt.stmt).map build_statement

/-- The running-maximum update in `validate_statements`:
`if risk_level > highest: highest = risk_level` (an `IntEnum` comparison). -/
def risk_max (acc new : OperationRiskLevel) : OperationRiskLevel :=
  if risk_value acc < risk_value new then new else acc

/-- The batch-wide highest risk level tracked by `validate_statements`,
starting from the `QueryValidationResults` default LOW. -/
def highest_risk (statements : List ValidatedStatement) : OperationRiskLevel :=
  statements.foldl (fun acc s => risk_max acc s.risk_level) .LOW

/-- The `ValidationError` message raised when no statements were parsed. -/
def no_statements_message : String :=
  "No queries were parsed - please check correctness of your query"

/-- The `ValidationError` message raised by `validate_query` for transaction
control statements. -/
def tcl_rejection_message : String :=
  "Transaction control statements (BEGIN, COMMIT, ROLLBACK) are not allowed. Queries will be automatically wrapped in transactions by the system."

/-- `SQLValidator.validate_statements` on a parsed tree: classify every
statement, reject an empty statement list, and track the highest risk. -/
def validate_statements (parse_tree : List RawStmt) :
    Except String QueryValidationResults :=
  let stmts := classified_statements parse_tree
  if stmts.length = 0 then .error no_statements_message
  else .ok { statements := stmts, highest_risk_level := highest_risk stmts }

/-- `SQLValidator.validate_query` from the parse tree on: run
`validate_statements`, then reject the batch if any classified statement has
category TCL.  (Raw-input checks and `pglast.parse_sql` happen before this
point and are outside the embedded code.) -/
def validate_query (parse_tree : List RawStmt) :
    Except String QueryValidationResults :=
  match validate_statements parse_tree with
  | .error e => .error e
  | .ok result =>
    if result.statements.any (fun s => s.category == .TCL) then
      .error tcl_rejection_message
    else .ok result

/-! ### API path/method risk configuration (`safety_configs.py`, `APISafetyConfig`) -/

/-- A Python dictionary key as it occurs in `APISafetyConfig` lookups:
either a plain string or an `OperationRiskLevel` member.  Python `==`
between a `str` and an `IntEnum` member is always `False` (neither side's
`__eq__` accepts the other type), which `py_key_eq` mirrors with the
mismatched-constructor case. -/
inductive PyKey where
  | str (s : String)
  | risk (r : OperationRiskLevel)
deriving DecidableEq, Repr

/-- Python `==` on `PyKey` values. -/
def py_key_eq : PyKey → PyKey → Bool
  | .str a, .str b => a == b
  | .risk a, .risk b => a == b
  | _, _ => false

/-- Python `d.get(k, default)` / `k in d` on a dict with `PyKey` keys. -/
def py_dict_find {β : Type} (d : List (PyKey × β)) (k : PyKey) : Option β :=
  (d.find? fun e => py_key_eq e.1 k).map (fun e => e.2)

/-- `APISafetyConfig.PATH_SAFETY_CONFIG`: risk level to HTTP method to list
of path patterns.  The keys are `OperationRiskLevel` members; methods are
the string values of the `HTTPMethod` str-enum (a plain method string
compares equal to the member, so strings suffice there). -/
def PATH_SAFETY_CONFIG : List (PyKey × List (String × List String)) := [
  (.risk .EXTREME, [
    ("DELETE", ["/v1/projects/{ref}"])]),
  (.risk .HIGH, [
    ("DELETE", [
      "/v1/projects/{ref}/branches/{branch_id}",
      "/v1/projects/{ref}/branches",
      "/v1/projects/{ref}/custom-hostname",
      "/v1/projects/{ref}/vanity-subdomain",
      "/v1/projects/{ref}/network-bans",
      "/v1/projects/{ref}/secrets",
      "/v1/projects/{ref}/functions/{function_slug}",
      "/v1/projects/{ref}/api-keys/{id}",
      "/v1/projects/{ref}/config/auth/sso/providers/{provider_id}",
      "/v1/projects/{ref}/config/auth/signing-keys/{id}"]),
    ("POST", [
      "/v1/projects/{ref}/pause",
      "/v1/projects/{ref}/restore",
      "/v1/projects/{ref}/upgrade",
      "/v1/projects/{ref}/read-replicas/remove",
      "/v1/projects/{ref}/restore/cancel",
      "/v1/projects/{ref}/readonly/temporary-disable"])]),
  (.risk .MEDIUM, [
    ("POST", [
      "/v1/projects",
      "/v1/organizations",
      "/v1/projects/{ref}/branches",
      "/v1/projects/{ref}/branches/{branch_id}/push",
      "/v1/projects/{ref}/branches/{branch_id}/reset",
      "/v1/projects/{ref}/custom-hostname/initialize",
      "/v1/projects/{ref}/custom-hostname/reverify",
      "/v1/projects/{ref}/custom-hostname/activate",
      "/v1/projects/{ref}/network-bans/retrieve",
      "/v1/projects/{ref}/network-restrictions/apply",
      "/v1/projects/{ref}/secrets",
      "/v1/projects/{ref}/upgrade/status",
      "/v1/projects/{ref}/database/webhooks/enable",
      "/v1/projects/{ref}/functions",
      "/v1/projects/{ref}/functions/deploy",
      "/v1/projects/{ref}/config/auth/sso/providers",
      "/v1/projects/{ref}/database/backups/restore-pitr",
      "/v1/projects/{ref}/read-replicas/setup",
      "/v1/projects/{ref}/database/query",
      "/v1/projects/{ref}/config/auth/signing-keys",
      "/v1/oauth/token",
      "/v1/oauth/revoke",
      "/v1/projects/{ref}/api-keys"]),
    ("PATCH", [
      "/v1/projects/{ref}/config/auth",
      "/v1/projects/{ref}/config/database/pooler",
      "/v1/projects/{ref}/postgrest",
      "/v1/projects/{ref}/functions/{function_slug}",
      "/v1/projects/{ref}/config/storage",
      "/v1/branches/{branch_id}",
      "/v1/projects/{ref}/api-keys/{id}",
      "/v1/projects/{ref}/config/auth/signing-keys/{id}"]),
    ("PUT", [
      "/v1/projects/{ref}/config/database/postgres",
      "/v1/projects/{ref}/pgsodium",
      "/v1/projects/{ref}/ssl-enforcement",
      "/v1/projects/{ref}/functions",
      "/v1/projects/{ref}/config/auth/sso/providers/{provider_id}"])])]

/-- Python `str.replace(needle, repl)` on character lists, structurally
recursive on a fuel argument so that it reduces by computation.  Each step
consumes at least one character, so any fuel at least the input length is
enough; `py_replace` passes exactly the input length. -/
def py_replace_fuel (needle repl : List Char) : Nat -> List Char -> List Char
  | _, [] => []
  | 0, l => l
  | fuel + 1, c :: rest =>
    if needle.isPrefixOf (c :: rest) then
      match needle with
      | [] => c :: py_replace_fuel needle repl fuel rest
      | _ :: needle_tail => repl ++ py_replace_fuel needle repl fuel (rest.drop needle_tail.length)
    else c :: py_replace_fuel needle repl fuel rest

/-- Python `str.replace(needle, repl)` on character lists: replace
non-overlapping occurrences left to right. -/
def py_replace (needle repl s : List Char) : List Char :=
  py_replace_fuel needle repl s.length s

/-- `APISafetyConfig._convert_pattern_to_regex`: replace the six known
placeholders (`{ref}`, `{id}`, `{slug}`, `{table}`, `{branch_id}`,
`{function_slug}`) by `[^/]+`, then append `$` unless already present.
No other placeholder — in particular `{provider_id}` — is replaced. -/
def convert_pattern_to_regex (pattern : List Char) : List Char :=
  let r := py_replace "{ref}".data "[^/]+".data pattern
  let r := py_replace "{id}".data "[^/]+".data r
  let r := py_replace "{slug}".data "[^/]+".data r
  let r := py_replace "{table}".data "[^/]+".data r
  let r := py_replace "{branch_id}".data "[^/]+".data r
  let r := py_replace "{function_slug}".data "[^/]+".data r
  if r.getLast? == some '$' then r else r ++ ['$']

/-- A token of the regexes produced by `convert_pattern_to_regex`: the
character class `[^/]+`, the end anchor `$`, or a literal character.
(Unreplaced `{name}` placeholders stay literal: Python `re` treats a brace
that does not open a valid quantifier as a literal character.) -/
inductive RegexToken where
  | any_non_slash_plus
  | dollar
  | lit (c : Char)
deriving DecidableEq, Repr

/-- Scan a produced regex into its tokens. -/
def regex_tokens : List Char → List RegexToken
  | '[' :: '^' :: '/' :: ']' :: '+' :: rest => .any_non_slash_plus :: regex_tokens rest
  | '$' :: rest => .dollar :: regex_tokens rest
  | c :: rest => .lit c :: regex_tokens rest
  | [] => []

/-- Python `re.match` semantics for the produced regexes: anchored at the
start, a trailing `$` matches the end of the string or a position just
before a final newline, `[^/]+` matches one or more non-slash characters,
and a consumed pattern matches (a prefix match suffices for `re.match`).
Structurally recursive on a fuel argument so that it reduces by
computation. -/
def regex_match_fuel : Nat → List RegexToken → List Char → Bool
  | _, [], _ => true
  | 0, _, _ => false
  | fuel + 1, .dollar :: ts, s => (s.isEmpty || s == ['\n']) && regex_match_fuel fuel ts s
  | _ + 1, .lit _ :: _, [] => false
  | fuel + 1, .lit c :: ts, d :: s => c == d && regex_match_fuel fuel ts s
  | _ + 1, .any_non_slash_plus :: _, [] => false
  | fuel + 1, .any_non_slash_plus :: ts, d :: s =>
    !(d == '/') &&
      (regex_match_fuel fuel ts s || regex_match_fuel fuel (.any_non_slash_plus :: ts) s)

/-- The matcher applied with enough fuel: every recursive call of
`regex_match_fuel` decreases the sum of token count and input length by at
least one, so that sum is sufficient fuel and the zero-fuel branch is never
reached. -/
def regex_match (ts : List RegexToken) (s : List Char) : Bool :=
  regex_match_fuel (ts.length + s.length) ts s

/-- `APISafetyConfig._path_matches_risk_level`: fetch the method table for
the risk level (empty when absent), return false when the method has no
rules, else test the path against each converted pattern. -/
def path_matches_risk_level (method path : String) (risk_level : OperationRiskLevel) :
    Bool :=
  match py_dict_find PATH_SAFETY_CONFIG (.risk risk_level) with
  | none => false
  | some patterns =>
    match (patterns.find? fun mp => mp.1 == method) with
    | none => false
    | some mp =>
      mp.2.any fun pattern =>
        regex_match (regex_tokens (convert_pattern_to_regex pattern.data)) path.data

/-- `APISafetyConfig.get_risk_level` on the `(method, path)` part of an API
operation: check risk levels in decreasing order
(`sorted(PATH_SAFETY_CONFIG.keys(), reverse=True)` is EXTREME, HIGH,
MEDIUM) and default to LOW. -/
def api_get_risk_level (method path : String) : OperationRiskLevel :=
  if path_matches_risk_level method path .EXTREME then .EXTREME
  else if path_matches_risk_level method path .HIGH then .HIGH
  else if path_matches_risk_level method path .MEDIUM then .MEDIUM
  else .LOW

/-! ### Risk-rule introspection (`safety_manager.py`, `get_operations_by_risk_level`) -/

/-- `SafetyManager.get_operations_by_risk_level` with the standard
registered configs (`register_safety_configs`): for DATABASE the
`SQLSafetyConfig` has no `PATH_SAFETY_CONFIG` attribute and `{}` is
returned (modelled `some []`); for API the function tests
`risk_level in PATH_SAFETY_CONFIG` with its string argument against the
`OperationRiskLevel` keys and, when no key matches, falls off the end of
the function, returning Python `None` (modelled `none`). -/
def get_operations_by_risk_level (risk_level : String) (client_type : ClientType) :
    Option (List (String × List String)) :=
  match client_type with
  | .DATABASE => some []
  | .API =>
    match py_dict_find PATH_SAFETY_CONFIG (.str risk_level) with
    | some methods => some methods
    | none => none

/-- Python truthiness of the value `get_safety_rules` receives: `None` and
`{}` are falsy, so the help text renders the literal string "None" for
them (`api_manager.py`, `get_safety_rules`). -/
def risk_ops_truthy (ops : Option (List (String × List String))) : Bool :=
  match ops with
  | none => false
  | some l => !l.isEmpty

/-! ### Migration-name sanitization (`migration_manager.py`, `sanitize_name`) -/

/-- Python `re` word character `\w` (alphanumerics and underscore) on the
character repertoire this development evaluates the sanitizer at: the ASCII
word characters (codes 65–90, 97–122, 48–57, 95) and the letter U+0130
(code 304, Turkish capital dotted I), which Python classifies as a word
character.  The combining mark U+0307 is, faithfully, not a word character
(category Mn is not alphanumeric).  Other non-ASCII word characters exist
in Python but no statement below applies the sanitizer to them. -/
def is_word_char (c : Char) : Bool :=
  decide (65 ≤ c.toNat ∧ c.toNat ≤ 90) || decide (97 ≤ c.toNat ∧ c.toNat ≤ 122) ||
    decide (48 ≤ c.toNat ∧ c.toNat ≤ 57) || decide (c.toNat = 95) || decide (c.toNat = 304)

/-- Python `re` whitespace `\s` on ASCII, where it is exactly the codes
9–13 (tab, newline, vertical tab, form feed, carriage return), 28–31 (the
file/group/record/unit separators, which Python treats as whitespace) and
32 (space).  Non-ASCII Python whitespace (U+0085, U+00A0, and the U+2000
block) is outside the repertoire used below; U+0130 and U+0307 are,
faithfully, not whitespace. -/
def is_space_char (c : Char) : Bool :=
  decide (c.toNat = 32) || decide (9 ≤ c.toNat ∧ c.toNat ≤ 13) ||
    decide (28 ≤ c.toNat ∧ c.toNat ≤ 31)

/-- The one-to-one branch of Python `str.lower()`: map the ASCII codes
65–90 to 97–122, leave everything else unchanged. -/
def py_to_lower (c : Char) : Char :=
  if 65 ≤ c.toNat ∧ c.toNat ≤ 90 then Char.ofNat (c.toNat + 32) else c

/-- Python `str.lower()` on one character of the repertoire: U+0130 has
the only one-to-many lowercase mapping in Unicode SpecialCasing and
lowercases to "i" followed by the combining dot above U+0307; A–Z map to
a–z; everything else in the repertoire (the rest of ASCII, and U+0307
itself) is fixed.  Other non-ASCII cased letters, and the context-sensitive
final-sigma rule, are outside the repertoire the statements below use. -/
def py_lower_map (c : Char) : List Char :=
  if c.toNat = 304 then ['i', '\u0307'] else [py_to_lower c]

/-- Python `str.lower()` on a string: each character contributes its
(possibly one-to-many) lowercase mapping in order. -/
def py_str_lower : List Char → List Char
  | [] => []
  | c :: rest => py_lower_map c ++ py_str_lower rest

/-- Python `re.sub(r"\s+", "_", s)`: replace each maximal whitespace run
with a single underscore.  The boolean records whether the scan is inside a run. -/
def collapse_ws : List Char → Bool → List Char
  | [], _ => []
  | c :: rest, in_run =>
    if is_space_char c then
      if in_run then collapse_ws rest true
      else '_' :: collapse_ws rest true
    else c :: collapse_ws rest false

/-- `MigrationManager.sanitize_name`: drop characters outside `\w` and
`\s` (`re.sub(r"[^\w\s]", "", name)`), lowercase, collapse whitespace runs
to single underscores (`re.sub(r"\s+", "_", ...)`), and truncate to 100
characters. -/
def sanitize_name (name : String) : String :=
  let kept := name.data.filter fun c => is_word_char c || is_space_char c
  let lowered := py_str_lower kept
  let collapsed := collapse_ws lowered false
  ⟨collapsed.take 100⟩

/-! ### Migration recording in the query manager (`query_manager.py`) -/

/-- `QueryValidationResults.needs_migration`: any statement in the batch
needs a migration. -/
def query_needs_migration (v : QueryValidationResults) : Bool :=
  v.statements.any fun s => s.needs_migration

/-- The outcomes of the awaited collaborators of `QueryManager`, one field
per call site: executing the init-migrations query
(`init_migration_schema`, which bundles loading, validating and running
it), validating the prepared migration insert, executing it, and executing
the caller's primary statements.  Quantifying over a `QueryEnv` quantifies
over every combination of success and failure of those calls. -/
structure QueryEnv (ρ : Type) where
  init_outcome : Except String Unit
  migration_validation_outcome : Except String Unit
  migration_execution_outcome : Except String Unit
  primary_execution_outcome : Except String ρ

/-- `QueryManager.init_migration_schema`: run the init query; any raised
error is caught, logged as a warning, and discarded. -/
def init_migration_schema {ρ : Type} (env : QueryEnv ρ) : Except String Unit :=
  match env.init_outcome with
  | .ok _ => .ok ()
  | .error _ => .ok ()

/-- `QueryManager.handle_migration`: return immediately when the validated
query needs no migration; otherwise ensure the migration schema exists,
validate and execute the prepared migration insert, and catch any raised
error, logging it as a warning instead of propagating it. -/
def handle_migration {ρ : Type} (env : QueryEnv ρ) (validation_result : QueryValidationResults) :
    Except String Unit :=
  if !(query_needs_migration validation_result) then .ok ()
  else
    match (do
      let _ ← init_migration_schema env
      let _ ← env.migration_validation_outcome
      let _ ← env.migration_execution_outcome
      pure () : Except String Unit) with
    | .ok _ => .ok ()
    | .error _ => .ok ()

/-- The tail of `QueryManager.handle_query` after validation and the safety
gate: handle the migration, then execute the caller's primary statements
(`handle_query_execution`). -/
def handle_query_after_gate {ρ : Type} (env : QueryEnv ρ)
    (validation_result : QueryValidationResults) : Except String ρ := do
  let _ ← handle_migration env validation_result
  env.primary_execution_outcome

/-! ### The token-shape predicate of the confirmation-token claim -/

/-- Hexadecimal digit. -/
def is_hex_digit (c : Char) : Bool :=
  decide (48 ≤ c.toNat ∧ c.toNat ≤ 57) || decide (97 ≤ c.toNat ∧ c.toNat ≤ 102) ||
    decide (65 ≤ c.toNat ∧ c.toNat ≤ 70)

/-- Base64url alphabet character: ASCII letters, digits, `-` and `_`. -/
def is_base64url_char (c : Char) : Bool :=
  decide (65 ≤ c.toNat ∧ c.toNat ≤ 90) || decide (97 ≤ c.toNat ∧ c.toNat ≤ 122) ||
    decide (48 ≤ c.toNat ∧ c.toNat ≤ 57) || decide (c.toNat = 95) || decide (c.toNat = 45)

/-- Formalization of the claimed token shape: the prefix `"conf_"` followed
by a hex or base64url encoding of at least 8 bytes of randomness.  A hex
encoding of `k` bytes has `2 * k` characters, so at least 16; a base64url
encoding of `k` bytes has at least `⌈4 * k / 3⌉ - 2` characters, so at
least 11 for 8 bytes. -/
def claimed_token_shape (token : String) : Prop :=
  token.data.take 5 = "conf_".data ∧
    ((16 ≤ (token.data.drop 5).length ∧ (token.data.drop 5).all is_hex_digit) ∨
      (11 ≤ (token.data.drop 5).length ∧ (token.data.drop 5).all is_base64url_char))

set_option maxRecDepth 10000

/-! ## Helper lemmas -/

theorem char_toNat_ofNat {n : Nat} (h : n < 55296) : (Char.ofNat n).toNat = n := by
  have hv : n.isValidChar := Or.inl h
  unfold Char.ofNat
  rw [dif_pos hv]
  rfl

theorem toNat_py_to_lower (c : Char) :
    (py_to_lower c).toNat =
    if 65 ≤ c.toNat ∧ c.toNat ≤ 90 then c.toNat + 32 else c.toNat := by
  unfold py_to_lower
  split
  · exact char_toNat_ofNat (by omega)
  · rfl

theorem py_to_lower_fix (c : Char) (h : ¬(65 ≤ c.toNat ∧ c.toNat ≤ 90)) :
    py_to_lower c = c := by
  unfold py_to_lower
  rw [if_neg h]

theorem py_to_lower_idem (c : Char) : py_to_lower (py_to_lower c) = py_to_lower c := by
  apply py_to_lower_fix
  rw [toNat_py_to_lower]
  split <;> omega

theorem is_word_char_py_to_lower (c : Char) (h : is_word_char c = true) :
    is_word_char (py_to_lower c) = true := by
  have ht := toNat_py_to_lower c
  simp only [is_word_char, Bool.or_eq_true, decide_eq_true_eq] at h ⊢
  split at ht <;> omega

theorem py_to_lower_of_space (c : Char) (h : is_space_char c = true) :
    py_to_lower c = c := by
  apply py_to_lower_fix
  simp only [is_space_char, Bool.or_eq_true, decide_eq_true_eq] at h
  omega

theorem mem_collapse_ws (l : List Char) (b : Bool) :
    ∀ c ∈ collapse_ws l b, c = '_' ∨ (c ∈ l ∧ is_space_char c = false) := by
  induction l generalizing b with
  | nil =>
    intro c hc
    simp only [collapse_ws, List.not_mem_nil] at hc
  | cons a rest ih =>
    intro c hc
    by_cases ha : is_space_char a = true
    · rw [collapse_ws, if_pos ha] at hc
      by_cases hb : b
      · subst hb
        rw [if_pos rfl] at hc
        rcases ih true c hc with h | ⟨h1, h2⟩
        · exact Or.inl h
        · exact Or.inr ⟨List.mem_cons_of_mem _ h1, h2⟩
      · simp only [Bool.not_eq_true] at hb
        subst hb
        simp only [Bool.false_eq_true, if_false, List.mem_cons] at hc
        rcases hc with h | h
        · exact Or.inl h
        · rcases ih true c h with h' | ⟨h1, h2⟩
          · exact Or.inl h'
          · exact Or.inr ⟨List.mem_cons_of_mem _ h1, h2⟩
    · rw [collapse_ws, if_neg ha] at hc
      rcases List.mem_cons.mp hc with h | h
      · subst h
        refine Or.inr ⟨List.mem_cons_self _ _, ?_⟩
        simpa using ha
      · rcases ih false c h with h' | ⟨h1, h2⟩
        · exact Or.inl h'
        · exact Or.inr ⟨List.mem_cons_of_mem _ h1, h2⟩

theorem collapse_ws_of_no_space (l : List Char) (b : Bool)
    (h : ∀ c ∈ l, is_space_char c = false) : collapse_ws l b = l := by
  induction l generalizing b with
  | nil => rfl
  | cons a rest ih =>
    have ha := h a (List.mem_cons_self a rest)
    rw [collapse_ws, if_neg (by simp [ha])]
    rw [ih false fun c hc => h c (List.mem_cons_of_mem a hc)]

theorem py_lower_map_ascii (c : Char) (h : c.toNat ≤ 127) :
    py_lower_map c = [py_to_lower c] := by
  unfold py_lower_map
  rw [if_neg (by omega)]

theorem mem_py_str_lower (l : List Char) :
    ∀ c ∈ py_str_lower l, ∃ c0 ∈ l, c ∈ py_lower_map c0 := by
  induction l with
  | nil =>
    intro c hc
    simp only [py_str_lower, List.not_mem_nil] at hc
  | cons a rest ih =>
    intro c hc
    rw [py_str_lower] at hc
    rcases List.mem_append.mp hc with h | h
    · exact ⟨a, List.mem_cons_self a rest, h⟩
    · rcases ih c h with ⟨c0, hc0, hmap⟩
      exact ⟨c0, List.mem_cons_of_mem a hc0, hmap⟩

theorem py_str_lower_eq_of_fixed (l : List Char)
    (h : ∀ c ∈ l, py_lower_map c = [c]) : py_str_lower l = l := by
  induction l with
  | nil => rfl
  | cons a rest ih =>
    rw [py_str_lower, h a (List.mem_cons_self a rest),
      ih fun c hc => h c (List.mem_cons_of_mem a hc)]
    rfl

/-! ## Claim theorems -/

/-- C8: the claimed idempotence of the migration-name sanitizer fails on
the code for general (Unicode) input.  Python keeps the word character
U+0130 in the first `re.sub` and `str.lower()` maps it to "i" followed by
the combining dot above U+0307; a second pass drops U+0307, which is
neither a word character nor whitespace.  So sanitizing twice strips a
character that sanitizing once keeps. -/
theorem sanitize_name_not_idempotent_unicode :
    sanitize_name "\u0130" = "i\u0307" ∧
    sanitize_name (sanitize_name "\u0130") = "i" ∧
    sanitize_name (sanitize_name "\u0130") ≠ sanitize_name "\u0130" := by
  refine ⟨rfl, rfl, ?_⟩
  decide

/-- C8 (amended): the migration-name sanitizer is idempotent on ASCII
input: for every string `x` all of whose characters are ASCII,
`sanitize_name (sanitize_name x) = sanitize_name x`, where `sanitize_name`
lowercases, drops characters outside the allowed set, collapses whitespace
runs to single underscores, and truncates to 100 characters.  (On general
Unicode input idempotence fails; see the counterexample.) -/
theorem sanitize_name_idempotent_on_ascii (x : String)
    (hx : ∀ c ∈ x.data, c.toNat ≤ 127) :
    sanitize_name (sanitize_name x) = sanitize_name x := by
  have hkept : ∀ c ∈ (x.data.filter fun c => is_word_char c || is_space_char c),
      c.toNat ≤ 127 := fun c hc => hx c (List.mem_of_mem_filter hc)
  have hchars : ∀ c ∈ (sanitize_name x).data,
      is_word_char c = true ∧ is_space_char c = false ∧ py_to_lower c = c ∧
        c.toNat ≤ 127 := by
    intro c hc
    have hc' : c ∈ collapse_ws
        (py_str_lower (x.data.filter fun c => is_word_char c || is_space_char c))
        false := List.take_subset _ _ hc
    rcases mem_collapse_ws _ _ c hc' with h | ⟨hmem, hns⟩
    · subst h
      exact ⟨by decide, by decide, by decide, by decide⟩
    · rcases mem_py_str_lower _ c hmem with ⟨c0, hc0, hcmap⟩
      have hascii0 : c0.toNat ≤ 127 := hkept c0 hc0
      rw [py_lower_map_ascii c0 hascii0] at hcmap
      have hceq : c = py_to_lower c0 := by simpa using hcmap
      subst hceq
      have hascii : (py_to_lower c0).toNat ≤ 127 := by
        have ht := toNat_py_to_lower c0
        split at ht <;> omega
      have hk := List.of_mem_filter hc0
      simp only [Bool.or_eq_true] at hk
      rcases hk with hw | hs
      · exact ⟨is_word_char_py_to_lower c0 hw, hns, py_to_lower_idem c0, hascii⟩
      · rw [py_to_lower_of_space c0 hs] at hns
        rw [hs] at hns
        exact absurd hns (by simp)
  set y := sanitize_name x with hy
  have h1 : (y.data.filter fun c => is_word_char c || is_space_char c) = y.data :=
    List.filter_eq_self.mpr fun c hc => by rw [(hchars c hc).1, Bool.true_or]
  have h2 : py_str_lower y.data = y.data := by
    apply py_str_lower_eq_of_fixed
    intro c hc
    rw [py_lower_map_ascii c (hchars c hc).2.2.2, (hchars c hc).2.2.1]
  have h3 : collapse_ws y.data false = y.data :=
    collapse_ws_of_no_space _ _ fun c hc => (hchars c hc).2.1
  have h4 : y.data.take 100 = y.data := by
    apply List.take_of_length_le
    have hdata : y.data = (collapse_ws
        (py_str_lower (x.data.filter fun c => is_word_char c || is_space_char c))
        false).take 100 := rfl
    rw [hdata]
    exact List.length_take_le _ _
  show (⟨(collapse_ws
      (py_str_lower (y.data.filter fun c => is_word_char c || is_space_char c))
      false).take 100⟩ : String) = y
  rw [h1, h2, h3, h4]

theorem sanitize_name_idempotent_on_ascii_witness :
    (∀ c ∈ "My  Migration!! Name".data, c.toNat ≤ 127) ∧
    sanitize_name (sanitize_name "My  Migration!! Name") =
      sanitize_name "My  Migration!! Name" :=
  ⟨by decide, sanitize_name_idempotent_on_ascii "My  Migration!! Name" (by decide)⟩

/-- C2: the claim that every `{name}` placeholder (including `{provider_id}`)
matches an arbitrary path segment fails on the code:
`_convert_pattern_to_regex` substitutes only `{ref}`, `{id}`, `{slug}`,
`{table}`, `{branch_id}` and `{function_slug}`, so the HIGH rule
`DELETE /v1/projects/{ref}/config/auth/sso/providers/{provider_id}` never
matches a concrete provider id and the operation resolves to the LOW
default, while a rule using only substituted placeholders
(`/v1/projects/{ref}/api-keys/{id}`) does resolve to HIGH. -/
theorem api_sso_provider_delete_resolves_low :
    api_get_risk_level "DELETE"
      "/v1/projects/myproject/config/auth/sso/providers/okta" = .LOW ∧
    api_get_risk_level "DELETE" "/v1/projects/myproject/api-keys/mykey" = .HIGH := by
  constructor
  · rfl
  · rfl

/-- C9: the claim that the risk-rule introspection surface returns the
configured `{method → [pattern]}` mapping fails on the code: the help
surface calls `get_operations_by_risk_level` with the strings "extreme",
"high" and "medium", the membership test compares those strings against
`OperationRiskLevel` keys (never equal), and the function falls off the end
returning Python `None`, which the help output renders as "None". -/
theorem risk_level_introspection_returns_none :
    get_operations_by_risk_level "extreme" .API = none ∧
    get_operations_by_risk_level "high" .API = none ∧
    get_operations_by_risk_level "medium" .API = none ∧
    risk_ops_truthy (get_operations_by_risk_level "extreme" .API) = false := by
  refine ⟨rfl, rfl, rfl, rfl⟩

/-- C5: for every combination of collaborator outcomes, `handle_migration`
swallows any error raised while recording a migration (initializing the
bookkeeping schema or validating/inserting the migration row) and returns
normally, and `handle_query` still proceeds to execute the caller's primary
statements, whose outcome alone is returned. -/
theorem migration_failure_never_propagates {ρ : Type} (env : QueryEnv ρ)
    (validation_result : QueryValidationResults) :
    handle_migration env validation_result = .ok () ∧
    handle_query_after_gate env validation_result = env.primary_execution_outcome := by
  have h : handle_migration env validation_result = .ok () := by
    unfold handle_migration
    split
    · rfl
    · split <;> rfl
  refine ⟨h, ?_⟩
  unfold handle_query_after_gate
  rw [h]
  rfl

theorem find_entry_mem {β : Type} (k : String) (l : List (String × β)) (v : β)
    (h : find_entry k l = some v) : ∃ p ∈ l, p.2 = v := by
  induction l with
  | nil => simp [find_entry] at h
  | cons e rest ih =>
    rw [find_entry] at h
    split at h
    · exact ⟨e, List.mem_cons_self _ _, Option.some.inj h⟩
    · rcases ih h with ⟨p, hp, hv⟩
      exact ⟨p, List.mem_cons_of_mem _ hp, hv⟩

theorem classify_copy_to (nt : String) :
    classify_statement "CopyStmt" (some ⟨nt, some false⟩) = ⟨.DQL, .LOW, false⟩ := rfl

theorem classify_copy_from (nt : String) (isf : Option Bool) (h : isf ≠ some false) :
    classify_statement "CopyStmt" (some ⟨nt, isf⟩) = ⟨.DML, .MEDIUM, false⟩ := by
  match isf with
  | none => rfl
  | some true => rfl
  | some false => exact absurd rfl h

/-- C7: for every statement type and parse-tree node, if the classification
produced by `classify_statement` (including both directions of COPY) has
category DQL, then its risk level is LOW and its `needs_migration` flag is
false. -/
theorem dql_classification_low_no_migration (stmt_type : String)
    (stmt_node : Option PgStmtNode)
    (h : (classify_statement stmt_type stmt_node).category = .DQL) :
    (classify_statement stmt_type stmt_node).risk_level = .LOW ∧
    (classify_statement stmt_type stmt_node).needs_migration = false := by
  have htable : ∀ p ∈ STATEMENT_CONFIG, p.2.category = SQLQueryCategory.DQL →
      p.2.risk_level = .LOW ∧ p.2.needs_migration = false := by decide
  by_cases hcopy : stmt_type = "CopyStmt"
  · subst hcopy
    match stmt_node with
    | none => exact absurd h (by decide)
    | some ⟨nt, some false⟩ =>
      rw [classify_copy_to]
      exact ⟨rfl, rfl⟩
    | some ⟨nt, none⟩ =>
      rw [classify_copy_from nt none (by simp)] at h
      exact absurd h (by decide)
    | some ⟨nt, some true⟩ =>
      rw [classify_copy_from nt (some true) (by simp)] at h
      exact absurd h (by decide)
  · have hcl : classify_statement stmt_type stmt_node =
        (find_entry stmt_type STATEMENT_CONFIG).getD default_statement_config := by
      unfold classify_statement
      rw [if_neg hcopy]
    rw [hcl] at h ⊢
    cases hlook : find_entry stmt_type STATEMENT_CONFIG with
    | none =>
      rw [hlook] at h
      simp only [Option.getD_none] at h
      exact absurd h (by decide)
    | some e =>
      rw [hlook] at h
      simp only [Option.getD_some] at h ⊢
      rcases find_entry_mem _ _ _ hlook with ⟨p, hp, hpe⟩
      have hres := htable p hp (by rw [hpe]; exact h)
      rw [hpe] at hres
      exact hres

theorem dql_classification_low_no_migration_witness :
    (classify_statement "SelectStmt" none).category = .DQL ∧
    ((classify_statement "SelectStmt" none).risk_level = .LOW ∧
      (classify_statement "SelectStmt" none).needs_migration = false) :=
  ⟨by decide, dql_classification_low_no_migration "SelectStmt" none (by decide)⟩

/-- C3: for every input batch, if any of its classified statements has
category TCL, then `validate_query` fails with the
transaction-control-rejected error and returns no validation result; the
error message instructs the caller that the system wraps statements in a
transaction itself. -/
theorem validator_rejects_tcl (parse_tree : List RawStmt)
    (h : ∃ s ∈ classified_statements parse_tree, s.category = .TCL) :
    validate_query parse_tree = .error tcl_rejection_message ∧
    tcl_rejection_message =
      "Transaction control statements (BEGIN, COMMIT, ROLLBACK) are not allowed. Queries will be automatically wrapped in transactions by the system." := by
  refine ⟨?_, rfl⟩
  rcases h with ⟨s, hs, hcat⟩
  have hne : classified_statements parse_tree ≠ [] := by
    intro hnil
    rw [hnil] at hs
    exact List.not_mem_nil s hs
  have hvs : validate_statements parse_tree =
      .ok { statements := classified_statements parse_tree,
            highest_risk_level := highest_risk (classified_statements parse_tree) } := by
    simp only [validate_statements]
    rw [if_neg (by simpa [List.length_eq_zero] using hne)]
  have hany : (classified_statements parse_tree).any (fun s => s.category == .TCL) = true :=
    List.any_eq_true.mpr ⟨s, hs, by rw [hcat]; decide⟩
  unfold validate_query
  rw [hvs]
  simp only [hany, if_true]

theorem validator_rejects_tcl_witness :
    (∃ s ∈ classified_statements [⟨some ⟨"TransactionStmt", none⟩⟩], s.category = .TCL) ∧
    validate_query [⟨some ⟨"TransactionStmt", none⟩⟩] = .error tcl_rejection_message :=
  ⟨by decide, (validator_rejects_tcl _ (by decide)).1⟩

/-- C10: for every client kind with no registered safety configuration,
`validate_operation` denies every operation with the not-allowed error,
regardless of operation, safety mode and confirmation flag, leaving the
pending map unchanged. -/
theorem unconfigured_client_fails_closed {α : Type}
    (configs : ClientType → Option (α → OperationRiskLevel))
    (modes : ClientType → SafetyMode)
    (pending : List (String × PendingConfirmation α))
    (kind : ClientType) (op : α) (confirmed : Bool) (uuid_hex : String) (now : Int)
    (hcfg : configs kind = none) :
    validate_operation configs modes pending kind op confirmed uuid_hex now =
      (.notAllowed, pending) := by
  simp only [validate_operation, hcfg]

theorem unconfigured_client_fails_closed_witness :
    ((fun _ : ClientType => (none : Option (Unit → OperationRiskLevel))) .DATABASE = none) ∧
    validate_operation (fun _ => none) (fun _ => .SAFE) [] .DATABASE () true "u" 0 =
      (.notAllowed, []) :=
  ⟨rfl, unconfigured_client_fails_closed _ _ _ _ _ _ _ _ rfl⟩

theorem find_entry_filter_py_dict_set {β : Type} (k : String) (v : β)
    (p : String × β → Bool) (m : List (String × β)) (hp : p (k, v) = true) :
    find_entry k ((py_dict_set k v m).filter p) = some v := by
  induction m with
  | nil =>
    rw [py_dict_set, List.filter_cons_of_pos hp, find_entry, if_pos rfl]
  | cons e rest ih =>
    by_cases hek : e.1 = k
    · rw [py_dict_set, if_pos hek, List.filter_cons_of_pos hp, find_entry, if_pos rfl]
    · rw [py_dict_set, if_neg hek]
      by_cases he : p e = true
      · rw [List.filter_cons_of_pos he, find_entry, if_neg hek]
        exact ih
      · rw [List.filter_cons_of_neg (by simpa using he)]
        exact ih

/-- C1: for every client kind with a registered config, every operation,
every mode and every confirmation flag, `validate_operation` follows the
risk truth table: LOW is allowed; MEDIUM is allowed iff the mode is UNSAFE;
HIGH in SAFE mode is not allowed, in UNSAFE mode without confirmation it
stores the operation under a fresh token and raises ConfirmationRequired,
and in UNSAFE mode with confirmation it is allowed; EXTREME is never
allowed, even in UNSAFE mode with confirmation. -/
theorem safety_gate_truth_table {α : Type}
    (configs : ClientType → Option (α → OperationRiskLevel))
    (modes : ClientType → SafetyMode)
    (pending : List (String × PendingConfirmation α))
    (kind : ClientType) (op : α) (confirmed : Bool) (uuid_hex : String) (now : Int)
    (risk_of : α → OperationRiskLevel) (hcfg : configs kind = some risk_of) :
    (risk_of op = .LOW →
      validate_operation configs modes pending kind op confirmed uuid_hex now =
        (.allowed, pending)) ∧
    (risk_of op = .MEDIUM → modes kind = .UNSAFE →
      validate_operation configs modes pending kind op confirmed uuid_hex now =
        (.allowed, pending)) ∧
    (risk_of op = .MEDIUM → modes kind = .SAFE →
      validate_operation configs modes pending kind op confirmed uuid_hex now =
        (.notAllowed, pending)) ∧
    (risk_of op = .HIGH → modes kind = .SAFE →
      validate_operation configs modes pending kind op confirmed uuid_hex now =
        (.notAllowed, pending)) ∧
    (risk_of op = .HIGH → modes kind = .UNSAFE → confirmed = true →
      validate_operation configs modes pending kind op confirmed uuid_hex now =
        (.allowed, pending)) ∧
    (risk_of op = .HIGH → modes kind = .UNSAFE → confirmed = false →
      validate_operation configs modes pending kind op confirmed uuid_hex now =
        (.confirmationRequired (generate_confirmation_id uuid_hex),
          cleanup_expired_confirmations now
            (py_dict_set (generate_confirmation_id uuid_hex)
              ⟨op, kind, .HIGH, now⟩ pending)) ∧
      find_entry (generate_confirmation_id uuid_hex)
        (validate_operation configs modes pending kind op confirmed uuid_hex now).2 =
        some ⟨op, kind, .HIGH, now⟩) ∧
    (risk_of op = .EXTREME →
      validate_operation configs modes pending kind op confirmed uuid_hex now =
        (.notAllowed, pending)) := by
  refine ⟨?_, ?_, ?_, ?_, ?_, ?_, ?_⟩
  · intro hr
    simp [validate_operation, hcfg, hr, is_operation_allowed, needs_confirmation, risk_value]
  · intro hr hm
    simp [validate_operation, hcfg, hr, hm, is_operation_allowed, needs_confirmation,
      risk_value]
  · intro hr hm
    simp [validate_operation, hcfg, hr, hm, is_operation_allowed, needs_confirmation,
      risk_value]
  · intro hr hm
    simp [validate_operation, hcfg, hr, hm, is_operation_allowed, needs_confirmation,
      risk_value]
  · intro hr hm hc
    simp [validate_operation, hcfg, hr, hm, hc, is_operation_allowed, needs_confirmation,
      risk_value]
  · intro hr hm hc
    have hpair :
        validate_operation configs modes pending kind op confirmed uuid_hex now =
          (.confirmationRequired (generate_confirmation_id uuid_hex),
            cleanup_expired_confirmations now
              (py_dict_set (generate_confirmation_id uuid_hex)
                ⟨op, kind, .HIGH, now⟩ pending)) := by
      simp [validate_operation, hcfg, hr, hm, hc, is_operation_allowed, needs_confirmation,
        risk_value, store_confirmation]
    refine ⟨hpair, ?_⟩
    rw [hpair]
    have hp : (fun e : String × PendingConfirmation α =>
        decide (now - e.2.timestamp ≤ confirmation_expiry))
          (generate_confirmation_id uuid_hex, ⟨op, kind, .HIGH, now⟩) = true := by
      simp only [confirmation_expiry, decide_eq_true_eq]
      omega
    have hfe := find_entry_filter_py_dict_set (generate_confirmation_id uuid_hex)
      (⟨op, kind, .HIGH, now⟩ : PendingConfirmation α)
      (fun e => decide (now - e.2.timestamp ≤ confirmation_expiry)) pending hp
    simpa [cleanup_expired_confirmations] using hfe
  · intro hr
    simp [validate_operation, hcfg, hr, is_operation_allowed, needs_confirmation,
      risk_value]

theorem safety_gate_truth_table_witness :
    ((fun _ : ClientType => some fun _ : Unit => OperationRiskLevel.EXTREME) .API =
      some fun _ : Unit => OperationRiskLevel.EXTREME) ∧
    validate_operation (fun _ => some fun _ : Unit => OperationRiskLevel.EXTREME)
      (fun _ => .UNSAFE) [] .API () true "0123456789abcdef" 0 = (.notAllowed, []) :=
  ⟨rfl, (safety_gate_truth_table _ _ _ _ _ _ _ _ _ rfl).2.2.2.2.2.2 rfl⟩

theorem find_entry_eq_none {β : Type} (k : String) (l : List (String × β))
    (h : ∀ e ∈ l, e.1 ≠ k) : find_entry k l = none := by
  induction l with
  | nil => rfl
  | cons e rest ih =>
    rw [find_entry, if_neg (h e (List.mem_cons_self e rest))]
    exact ih fun x hx => h x (List.mem_cons_of_mem e hx)

theorem find_entry_filter {β : Type} (k : String) (v : β) (p : String × β → Bool)
    (m : List (String × β)) (hnd : (m.map Prod.fst).Nodup)
    (h : find_entry k m = some v) :
    find_entry k (m.filter p) = if p (k, v) = true then some v else none := by
  induction m with
  | nil => simp [find_entry] at h
  | cons e rest ih =>
    have hnd' : (rest.map Prod.fst).Nodup := (List.nodup_cons.mp hnd).2
    obtain ⟨e1, e2⟩ := e
    by_cases hek : e1 = k
    · subst hek
      rw [find_entry, if_pos rfl] at h
      have hv : e2 = v := Option.some.inj h
      subst hv
      have hknot : e1 ∉ rest.map Prod.fst := (List.nodup_cons.mp hnd).1
      by_cases hp : p (e1, e2) = true
      · rw [List.filter_cons_of_pos hp, find_entry, if_pos rfl, if_pos hp]
      · rw [List.filter_cons_of_neg (by simpa using hp), if_neg hp]
        apply find_entry_eq_none
        intro x hx hxk
        exact hknot (hxk ▸ List.mem_map_of_mem Prod.fst (List.mem_of_mem_filter hx))
    · rw [find_entry, if_neg hek] at h
      by_cases hpe : p (e1, e2) = true
      · rw [List.filter_cons_of_pos hpe, find_entry, if_neg hek]
        exact ih hnd' h
      · rw [List.filter_cons_of_neg (by simpa using hpe)]
        exact ih hnd' h

/-- C4: a stored pending confirmation with timestamp `t0` is returned by a
lookup at time `t` iff `t - t0 ≤ 300`; every lookup and every store removes
all entries older than 300 seconds; and redemption does not delete the
entry, so a second redemption of the same token still succeeds within the
window. -/
theorem confirmation_expiry_window {α : Type}
    (pending : List (String × PendingConfirmation α)) (confirmation_id : String)
    (entry : PendingConfirmation α)
    (hnd : (pending.map Prod.fst).Nodup)
    (hfound : find_entry confirmation_id pending = some entry) (t : Int) :
    ((get_stored_operation confirmation_id t pending).1 = some entry.operation ↔
      t - entry.timestamp ≤ 300) ∧
    (∀ e ∈ (get_confirmation confirmation_id t pending).2, t - e.2.timestamp ≤ 300) ∧
    (∀ uuid_hex client_type (op : α) risk_level,
      ∀ e ∈ (store_confirmation uuid_hex client_type op risk_level t pending).2,
        t - e.2.timestamp ≤ 300) ∧
    (∀ t2, t - entry.timestamp ≤ 300 → t2 - entry.timestamp ≤ 300 →
      (get_stored_operation confirmation_id t2
        (get_stored_operation confirmation_id t pending).2).1 = some entry.operation) := by
  have hfe := find_entry_filter confirmation_id entry
    (fun e => decide (t - e.2.timestamp ≤ confirmation_expiry)) pending hnd hfound
  have hstate : (get_stored_operation confirmation_id t pending).2 =
      cleanup_expired_confirmations t pending := rfl
  have hval : (get_stored_operation confirmation_id t pending).1 =
      (find_entry confirmation_id (cleanup_expired_confirmations t pending)).map
        PendingConfirmation.operation := rfl
  refine ⟨?_, ?_, ?_, ?_⟩
  · constructor
    · intro h
      by_contra hgt
      rw [hval] at h
      rw [cleanup_expired_confirmations, hfe,
        if_neg (by simpa [confirmation_expiry] using hgt)] at h
      exact Option.noConfusion h
    · intro hle
      rw [hval, cleanup_expired_confirmations, hfe,
        if_pos (by simpa [confirmation_expiry] using hle)]
      rfl
  · intro e he
    have hmem := List.of_mem_filter he
    simpa [confirmation_expiry] using hmem
  · intro uuid_hex client_type op risk_level e he
    have hmem := List.of_mem_filter he
    simpa [confirmation_expiry] using hmem
  · intro t2 h1 h2
    rw [hstate]
    have hnd1 : ((cleanup_expired_confirmations t pending).map Prod.fst).Nodup :=
      hnd.sublist (List.Sublist.map Prod.fst (List.filter_sublist pending))
    have hfound1 : find_entry confirmation_id (cleanup_expired_confirmations t pending) =
        some entry := by
      rw [cleanup_expired_confirmations, hfe,
        if_pos (by simpa [confirmation_expiry] using h1)]
    have hfe2 := find_entry_filter confirmation_id entry
      (fun e => decide (t2 - e.2.timestamp ≤ confirmation_expiry))
      (cleanup_expired_confirmations t pending) hnd1 hfound1
    have hval2 : (get_stored_operation confirmation_id t2
        (cleanup_expired_confirmations t pending)).1 =
        (find_entry confirmation_id (cleanup_expired_confirmations t2
          (cleanup_expired_confirmations t pending))).map
          PendingConfirmation.operation := rfl
    rw [hval2, cleanup_expired_confirmations, hfe2,
      if_pos (by simpa [confirmation_expiry] using h2)]
    rfl

theorem confirmation_expiry_window_witness :
    (([("conf_0a1b2c3d",
        (⟨"DROP TABLE t", .DATABASE, .HIGH, 0⟩ : PendingConfirmation String))].map
        Prod.fst).Nodup) ∧
    (find_entry "conf_0a1b2c3d"
      [("conf_0a1b2c3d",
        (⟨"DROP TABLE t", .DATABASE, .HIGH, 0⟩ : PendingConfirmation String))] =
      some ⟨"DROP TABLE t", .DATABASE, .HIGH, 0⟩) ∧
    ((get_stored_operation "conf_0a1b2c3d" 100
      [("conf_0a1b2c3d",
        (⟨"DROP TABLE t", .DATABASE, .HIGH, 0⟩ : PendingConfirmation String))]).1 =
      some "DROP TABLE t" ↔ (100 : Int) - 0 ≤ 300) :=
  ⟨by decide, by decide,
    (confirmation_expiry_window
      [("conf_0a1b2c3d",
        (⟨"DROP TABLE t", .DATABASE, .HIGH, 0⟩ : PendingConfirmation String))]
      "conf_0a1b2c3d" ⟨"DROP TABLE t", .DATABASE, .HIGH, 0⟩
      (by decide) (by decide) 100).1⟩

/-- C6: the claim that every confirmation token carries at least 8 bytes of
hex- or base64url-encoded cryptographic randomness fails on the code: the
token is `"conf_" + uuid.uuid4().hex[:8]`, whose suffix has only 8 hex
characters, i.e. 4 bytes of randomness — too short for a hex encoding
(16 characters needed) or a base64url encoding (11 needed) of 8 bytes. -/
theorem token_randomness_claim_fails :
    ¬ claimed_token_shape
      (generate_confirmation_id "0123456789abcdef0123456789abcdef") := by
  unfold claimed_token_shape
  decide

/-- C6 (amended): every confirmation token consists of the prefix `"conf_"`
followed by exactly the first 8 characters of the uuid4 hex string — a hex
encoding of 4 bytes of randomness, not of 8 or more. -/
theorem confirmation_token_shape (uuid_hex : String)
    (hlen : 8 ≤ uuid_hex.data.length)
    (hhex : uuid_hex.data.all is_hex_digit = true) :
    (generate_confirmation_id uuid_hex).data.take 5 = "conf_".data ∧
    (generate_confirmation_id uuid_hex).data.drop 5 = uuid_hex.data.take 8 ∧
    ((generate_confirmation_id uuid_hex).data.drop 5).length = 8 ∧
    ((generate_confirmation_id uuid_hex).data.drop 5).all is_hex_digit = true := by
  have hdata : (generate_confirmation_id uuid_hex).data =
      "conf_".data ++ uuid_hex.data.take 8 := rfl
  have hlen5 : ("conf_".data).length = 5 := rfl
  have htake : (generate_confirmation_id uuid_hex).data.take 5 = "conf_".data := by
    rw [hdata]
    exact List.take_left' hlen5
  have hdrop : (generate_confirmation_id uuid_hex).data.drop 5 = uuid_hex.data.take 8 := by
    rw [hdata]
    exact List.drop_left' hlen5
  refine ⟨htake, hdrop, ?_, ?_⟩
  · rw [hdrop, List.length_take]
    omega
  · rw [hdrop]
    rw [List.all_eq_true] at hhex ⊢
    exact fun c hc => hhex c (List.take_subset _ _ hc)

theorem confirmation_token_shape_witness :
    (8 ≤ "0123456789abcdef0123456789abcdef".data.length) ∧
    ("0123456789abcdef0123456789abcdef".data.all is_hex_digit = true) ∧
    (generate_confirmation_id "0123456789abcdef0123456789abcdef").data.drop 5 =
      "0123456789abcdef0123456789abcdef".data.take 8 :=
  ⟨by decide, by decide,
    (confirmation_token_shape _ (by decide) (by decide)).2.1⟩
